/-
Verification of the swarms workflow engine and tool-command extraction,
shallowly embedded from the repository sources:
  src/swarms/structs/base_workflow.py  (class BaseWorkflow)
  src/swarms/tools/tool_utils.py       (extract_tool_commands)
Python's dynamically typed JSON-serialisable values are modelled by the
inductive `PyVal`; every workflow operation becomes a pure function on an
explicit `Workflow` state.  Exceptions that the source catches inside the
operation are modelled by the operation returning the post-state that the
caller observes after the `except` block ran; the one operation that lets an
exception escape to the caller (`add`) returns `Except`.
-/
import Mathlib

namespace Swarms

/-- Dynamically typed values as they appear in the workflow engine: the
JSON-serialisable fragment of Python (None, bool, int, str, list, dict).
Dictionaries are insertion-ordered association lists, as in Python. -/
inductive PyVal where
  | none : PyVal
  | bool (b : Bool) : PyVal
  | int (n : Int) : PyVal
  | str (s : String) : PyVal
  | list (xs : List PyVal) : PyVal
  | dict (entries : List (PyVal × PyVal)) : PyVal

mutual

/-- Structural equality of `PyVal`s, mirroring Python `==` on
JSON-shaped data.  (Python's `True == 1` coercion and order-insensitive
dict equality are not reproduced; every key compared in this development
is a string, where the two notions agree.) -/
def pyBeq : PyVal → PyVal → Bool
  | PyVal.none, PyVal.none => true
  | PyVal.bool a, PyVal.bool b => a == b
  | PyVal.int a, PyVal.int b => a == b
  | PyVal.str a, PyVal.str b => a == b
  | PyVal.list xs, PyVal.list ys => pyListBeq xs ys
  | PyVal.dict xs, PyVal.dict ys => pyPairsBeq xs ys
  | _, _ => false

/-- Element-wise equality of Python lists. -/
def pyListBeq : List PyVal → List PyVal → Bool
  | [], [] => true
  | x :: xs, y :: ys => pyBeq x y && pyListBeq xs ys
  | _, _ => false

/-- Entry-wise equality of dict association lists. -/
def pyPairsBeq : List (PyVal × PyVal) → List (PyVal × PyVal) → Bool
  | [], [] => true
  | (k1, v1) :: xs, (k2, v2) :: ys =>
      pyBeq k1 k2 && pyBeq v1 v2 && pyPairsBeq xs ys
  | _, _ => false

end

/-- Python dict assignment `d[k] = v`: overwrite in place if the key is
present (keeping its position), otherwise append at the end. -/
def pyInsert (es : List (PyVal × PyVal)) (k v : PyVal) : List (PyVal × PyVal) :=
  if es.any (fun e => pyBeq e.1 k) then
    es.map (fun e => if pyBeq e.1 k then (e.1, v) else e)
  else
    es ++ [(k, v)]

/-- Python subscription `d[k]` on a dict, `Option.none` modelling the
`KeyError` (or the `TypeError` when the value is not a dict); both are
caught by the same `except` blocks in the source. -/
def pyGet (v : PyVal) (k : PyVal) : Option PyVal :=
  match v with
  | PyVal.dict es => (es.find? (fun e => pyBeq e.1 k)).map (fun e => e.2)
  | _ => Option.none

/-- Subscription with a string literal key, as in `state["max_loops"]`. -/
def pyGetS (v : PyVal) (k : String) : Option PyVal :=
  pyGet v (PyVal.str k)

/-- Modelled from the spec: the class `Task` (swarms/structs/task.py) is not
under src/; §3 of the spec gives its fields — `description` (string label),
`agent` (external reference the engine never inspects), `args` (positional
inputs), `kwargs` (named inputs), `result` (None until executed), `history`
(prior interactions).  All fields are kept dynamically typed (`PyVal`),
matching the untyped attribute assignments of the source: `PyVal.none`
stands for Python `None`. -/
structure Task where
  description : PyVal
  agent : PyVal
  args : PyVal
  kwargs : PyVal
  result : PyVal
  history : PyVal

/-- The mutable state of a `BaseWorkflow` object.  `task_pool` is created by
`BaseWorkflow.__init__`; `tasks` and `max_loops` are the attributes that
every other method reads and writes (modelled from the spec for their
initial presence: the base class `BaseStructure` in swarms/structs/base.py
is not under src/, and the spec's §3 workflow state is an ordered task
sequence plus an integer `max_loops`). -/
structure Workflow where
  task_pool : List Task
  tasks : List Task
  max_loops : PyVal

/-- `BaseWorkflow.add(task=None, tasks=None)` (source lines 28-52):
`if task:` appends it to `task_pool` (a Task instance is always truthy),
`elif tasks:` extends `task_pool` (an empty list is falsy and falls
through), `else:` raises `ValueError` — the one mutation operation whose
exception is NOT caught and reaches the caller, hence the `Except` result. -/
def add (w : Workflow) (task : Option Task) (tasks : Option (List Task)) :
    Except String Workflow :=
  match task with
  | Option.some t => Except.ok { w with task_pool := w.task_pool ++ [t] }
  | Option.none =>
    match tasks with
    | Option.some ts =>
      if ts.isEmpty then
        Except.error "You must provide a task or a list of tasks"
      else
        Except.ok { w with task_pool := w.task_pool ++ ts }
    | Option.none => Except.error "You must provide a task or a list of tasks"

/-- `BaseWorkflow.reset` (source lines 83-91): sets `task.result = None` for
every task in `self.tasks`; the surrounding try/except only guards attribute
errors, the loop body itself cannot raise. -/
def reset (w : Workflow) : Workflow :=
  { w with tasks := w.tasks.map (fun t => { t with result := PyVal.none }) }

/-- `BaseWorkflow.get_task_results` (source lines 93-109): the dict
comprehension `{task.description: task.result for task in self.tasks}`;
duplicate descriptions silently overwrite (last value, first position),
which is Python dict-assignment semantics, here `pyInsert`. -/
def get_task_results (w : Workflow) : PyVal :=
  PyVal.dict (w.tasks.foldl (fun acc t => pyInsert acc t.description t.result) [])

/-- Python equality between an attribute value of a task and the Task object
itself, as forced by the shadowed loop variable in `remove_task`,
`update_task` and `delete_task`: the loop variable `task` (a Task instance)
shadows the string parameter of the same name, so `task.description == task`
compares the task's description value with the Task object.  A Task instance
is never equal to one of its own attribute values (spec §9 records this
shadowing as a defect of the source), so the comparison is constantly
`false`. -/
def pyEqValTask (_v : PyVal) (_t : Task) : Bool :=
  false

/-- `BaseWorkflow.remove_task` (source lines 111-125): rebinds `self.tasks`
to `[task for task in self.tasks if task.description != task]`; the filter
condition is the negation of the shadowed comparison. -/
def remove_task (w : Workflow) (_task : String) : Workflow :=
  { w with tasks := w.tasks.filter (fun t => !(pyEqValTask t.description t)) }

/-- Python's `for ... if cond: mutate; break / else: raise` shape used by
`update_task`: transform the first element satisfying the test, or signal
`Option.none` when the loop completes without a `break` (the `else` branch
raises). -/
def forFirst (ts : List Task) (p : Task → Bool) (f : Task → Task) :
    Option (List Task) :=
  match ts with
  | [] => Option.none
  | t :: rest =>
    if p t then Option.some (f t :: rest)
    else (forFirst rest p f).map (fun ts2 => t :: ts2)

/-- Python `task.kwargs.update(updates)`: merge the keyword mapping into the
kwargs dict.  (On a non-dict value `.update` would raise `AttributeError`;
the branch of `update_task` invoking this is unreachable, see
`pyEqValTask`.) -/
def pyKwUpdate (kw : PyVal) (updates : List (String × PyVal)) : PyVal :=
  match kw with
  | PyVal.dict es =>
      PyVal.dict (updates.foldl (fun acc u => pyInsert acc (PyVal.str u.1) u.2) es)
  | other => other

/-- `BaseWorkflow.update_task(task, **updates)` (source lines 127-164): scans
`self.tasks` for the first task whose (shadowed) comparison succeeds, merges
`updates` into its kwargs and breaks; the for/else raises `ValueError`,
which the enclosing try/except catches and prints, leaving the state as it
was. -/
def update_task (w : Workflow) (_task : String) (updates : List (String × PyVal)) :
    Workflow :=
  match forFirst w.tasks (fun t => pyEqValTask t.description t)
      (fun t => { t with kwargs := pyKwUpdate t.kwargs updates }) with
  | Option.some ts => { w with tasks := ts }
  | Option.none => w

/-- Field-wise equality of tasks, the `==` that Python `list.remove` would
use on dataclass-style Task instances (only ever invoked from the
unreachable branch of `delete_task`). -/
def taskBeq (a b : Task) : Bool :=
  pyBeq a.description b.description && pyBeq a.agent b.agent &&
  pyBeq a.args b.args && pyBeq a.kwargs b.kwargs &&
  pyBeq a.result b.result && pyBeq a.history b.history

/-- Python `list.remove(x)`: drop the first element equal to `x`. -/
def removeFirstTask (ts : List Task) (x : Task) : List Task :=
  match ts with
  | [] => []
  | t :: rest => if taskBeq t x then rest else t :: removeFirstTask rest x

/-- `BaseWorkflow.delete_task(task)` (source lines 166-202): scans
`self.tasks` for the first task whose (shadowed) comparison succeeds and
calls `self.tasks.remove(task)`; the for/else raises `ValueError`, caught
and printed by the enclosing try/except, leaving the state unchanged. -/
def delete_task (w : Workflow) (_task : String) : Workflow :=
  match w.tasks.find? (fun t => pyEqValTask t.description t) with
  | Option.some t => { w with tasks := removeFirstTask w.tasks t }
  | Option.none => w

/-- The per-task record written by `save_workflow_state` (source lines
230-239): keys `description`, `args`, `kwargs`, `result`, `history` — and no
`agent` key. -/
def taskRecord (t : Task) : PyVal :=
  PyVal.dict
    [ (PyVal.str "description", t.description)
    , (PyVal.str "args", t.args)
    , (PyVal.str "kwargs", t.kwargs)
    , (PyVal.str "result", t.result)
    , (PyVal.str "history", t.history) ]

/-- `BaseWorkflow.save_workflow_state` (source lines 204-249): the JSON
record `json.dump` writes to the file — the task records plus `max_loops`.
The method only reads `self.tasks` and `self.max_loops`; the workflow state
itself is unchanged, so the function returns just the file content. -/
def save_workflow_state (w : Workflow) : PyVal :=
  PyVal.dict
    [ (PyVal.str "tasks", PyVal.list (w.tasks.map taskRecord))
    , (PyVal.str "max_loops", w.max_loops) ]

/-- Reconstruction of one task inside `load_workflow_state` (source lines
306-313): `Task(description=ts["description"], agent=ts["agent"],
args=ts["args"], kwargs=ts["kwargs"], result=ts["result"],
history=ts["history"])`; the six subscriptions are evaluated in source
order and any missing key raises `KeyError` (`Option.none`). -/
def load_task_record (v : PyVal) : Option Task :=
  match pyGetS v "description" with
  | Option.none => Option.none
  | Option.some d =>
  match pyGetS v "agent" with
  | Option.none => Option.none
  | Option.some ag =>
  match pyGetS v "args" with
  | Option.none => Option.none
  | Option.some ar =>
  match pyGetS v "kwargs" with
  | Option.none => Option.none
  | Option.some kw =>
  match pyGetS v "result" with
  | Option.none => Option.none
  | Option.some res =>
  match pyGetS v "history" with
  | Option.none => Option.none
  | Option.some h => Option.some ⟨d, ag, ar, kw, res, h⟩

/-- Python iteration `for x in v`: lists yield their elements, strings their
one-character substrings, dicts their keys; other values raise `TypeError`
(`Option.none`). -/
def pyIter (v : PyVal) : Option (List PyVal) :=
  match v with
  | PyVal.list xs => Option.some xs
  | PyVal.str s => Option.some (s.toList.map (fun c => PyVal.str c.toString))
  | PyVal.dict es => Option.some (es.map (fun e => e.1))
  | _ => Option.none

/-- The loop of `load_workflow_state`: append reconstructed tasks one by one
and stop at the first record whose reconstruction raises — the tasks already
appended stay in `self.tasks`. -/
def load_tasks_loop : List PyVal → List Task
  | [] => []
  | v :: rest =>
    match load_task_record v with
    | Option.none => []
    | Option.some t => t :: load_tasks_loop rest

/-- The list of records the load loop iterates over: `state["tasks"]` when
present and iterable, and otherwise the empty iteration that the caught
exception effectively produces (in both error cases `self.tasks` keeps the
`[]` it was just assigned). -/
def tasksItems (st : PyVal) : List PyVal :=
  match pyGetS st "tasks" with
  | Option.none => []
  | Option.some tv => (pyIter tv).getD []

/-- `BaseWorkflow.load_workflow_state` (source lines 278-321): reads the
JSON file (`Option.none` models an unreadable or unparseable file), then
inside the try block executes `self.max_loops = state["max_loops"]`,
`self.tasks = []`, and the reconstruction loop over `state["tasks"]`.
Every exception is caught by the enclosing try/except and printed, so the
caller observes the state reached at the point of failure. -/
def load_workflow_state (w : Workflow) (file : Option PyVal) : Workflow :=
  match file with
  | Option.none => w
  | Option.some st =>
    match pyGetS st "max_loops" with
    | Option.none => w
    | Option.some ml =>
      let w1 : Workflow := { w with max_loops := ml, tasks := [] }
      match pyGetS st "tasks" with
      | Option.none => w1
      | Option.some tv =>
        match pyIter tv with
        | Option.none => w1
        | Option.some items => { w1 with tasks := load_tasks_loop items }

/-
Embedding of src/swarms/tools/tool_utils.py, function extract_tool_commands
(lines 20-45).  It runs `re.findall(r"```json(.+?)```", text, re.DOTALL)`
and then, per match, `json_commands = json.loads(match)` followed by
`json_commands.append(json_commands)` inside a try/except — and the
function body ends without a `return` statement, so it returns `None`.
-/

/-- Skip JSON whitespace. -/
def skipWs : List Char → List Char
  | [] => []
  | c :: r => if c == ' ' || c == '\n' || c == '\t' || c == '\r' then skipWs r else c :: r

/-- One JSON escape character after a backslash; `Option.none` for escapes
outside the modelled subset (`\uXXXX` is not supported — no input in this
development uses it). -/
def jsonEscChar (c : Char) : Option Char :=
  if c == 'n' then Option.some '\n'
  else if c == 't' then Option.some '\t'
  else if c == 'r' then Option.some '\r'
  else if c == '"' then Option.some '"'
  else if c == '\\' then Option.some '\\'
  else if c == '/' then Option.some '/'
  else if c == 'b' then Option.some (Char.ofNat 8)
  else if c == 'f' then Option.some (Char.ofNat 12)
  else Option.none

/-- Body of a JSON string literal after the opening quote: the decoded
characters and the remaining input after the closing quote. -/
def jsonStrBody : List Char → Option (List Char × List Char)
  | [] => Option.none
  | '"' :: r => Option.some ([], r)
  | '\\' :: c :: r =>
    match jsonEscChar c with
    | Option.none => Option.none
    | Option.some e =>
      (jsonStrBody r).map (fun p => (e :: p.1, p.2))
  | ['\\'] => Option.none
  | c :: r => (jsonStrBody r).map (fun p => (c :: p.1, p.2))

/-- Decimal digit run of a JSON number. -/
def jsonDigits : List Char → Option (Nat × List Char)
  | cs =>
    let ds := cs.takeWhile (fun c => c.isDigit)
    if ds.isEmpty then Option.none
    else Option.some (ds.foldl (fun acc c => acc * 10 + (c.toNat - 48)) 0, cs.drop ds.length)

/-- JSON integer, with optional minus sign.  (Fractions and exponents are
outside the modelled subset; an input containing them fails to parse, which
only matters for inputs this development never uses.) -/
def jsonInt (cs : List Char) : Option (Int × List Char) :=
  match cs with
  | '-' :: r => (jsonDigits r).map (fun p => (-(Int.ofNat p.1), p.2))
  | _ => (jsonDigits cs).map (fun p => (Int.ofNat p.1, p.2))

mutual

/-- One JSON value, fuel-indexed recursive descent modelling `json.loads`. -/
def jsonVal : Nat → List Char → Option (PyVal × List Char)
  | 0, _ => Option.none
  | Nat.succ fuel, cs =>
    match skipWs cs with
    | 'n' :: 'u' :: 'l' :: 'l' :: r => Option.some (PyVal.none, r)
    | 't' :: 'r' :: 'u' :: 'e' :: r => Option.some (PyVal.bool true, r)
    | 'f' :: 'a' :: 'l' :: 's' :: 'e' :: r => Option.some (PyVal.bool false, r)
    | '"' :: r => (jsonStrBody r).map (fun p => (PyVal.str (String.mk p.1), p.2))
    | '[' :: r =>
      (match skipWs r with
       | ']' :: r2 => Option.some (PyVal.list [], r2)
       | r2 => (jsonItems fuel r2).map (fun p => (PyVal.list p.1, p.2)))
    | '\x7b' :: r =>
      (match skipWs r with
       | '\x7d' :: r2 => Option.some (PyVal.dict [], r2)
       | r2 =>
         (jsonEntries fuel r2).map (fun p =>
           (PyVal.dict (p.1.foldl (fun acc e => pyInsert acc e.1 e.2) []), p.2)))
    | c :: r =>
      if c == '-' || c.isDigit then
        (jsonInt (c :: r)).map (fun p => (PyVal.int p.1, p.2))
      else Option.none
    | [] => Option.none

/-- Comma-separated JSON array items up to the closing bracket. -/
def jsonItems : Nat → List Char → Option (List PyVal × List Char)
  | 0, _ => Option.none
  | Nat.succ fuel, cs =>
    match jsonVal fuel cs with
    | Option.none => Option.none
    | Option.some (v, r) =>
      match skipWs r with
      | ',' :: r2 => (jsonItems fuel r2).map (fun p => (v :: p.1, p.2))
      | ']' :: r2 => Option.some ([v], r2)
      | _ => Option.none

/-- Comma-separated JSON object entries up to the closing brace. -/
def jsonEntries : Nat → List Char → Option (List (PyVal × PyVal) × List Char)
  | 0, _ => Option.none
  | Nat.succ fuel, cs =>
    match skipWs cs with
    | '"' :: r =>
      (match jsonStrBody r with
       | Option.none => Option.none
       | Option.some (k, r2) =>
         match skipWs r2 with
         | ':' :: r3 =>
           (match jsonVal fuel r3 with
            | Option.none => Option.none
            | Option.some (v, r4) =>
              match skipWs r4 with
              | ',' :: r5 =>
                (jsonEntries fuel r5).map (fun p =>
                  ((PyVal.str (String.mk k), v) :: p.1, p.2))
              | '\x7d' :: r5 => Option.some ([(PyVal.str (String.mk k), v)], r5)
              | _ => Option.none)
         | _ => Option.none)
    | _ => Option.none

end

/-- Python `json.loads`: parse one JSON document and require only
whitespace after it; `Option.none` models the raised `JSONDecodeError`. -/
def json_loads (s : String) : Option PyVal :=
  let cs := s.toList
  match jsonVal (cs.length + 1) cs with
  | Option.some (v, rest) => if (skipWs rest).isEmpty then Option.some v else Option.none
  | Option.none => Option.none

/-- Split a character list at the first occurrence of `pat`: the part
before it and the part after it. -/
def splitOnce : List Char → List Char → Option (List Char × List Char)
  | s, pat =>
    if pat.isPrefixOf s then Option.some ([], s.drop pat.length)
    else
      match s with
      | [] => Option.none
      | c :: rest =>
        (splitOnce rest pat).map (fun p => (c :: p.1, p.2))

/-- `re.findall(r"```json(.+?)```", text, re.DOTALL)`: scan left to right
for the literal opener, then capture lazily (at least one character) up to
the nearest closing triple backtick, and continue after it;
fuel-indexed since each round consumes part of the input. -/
def findallAux : Nat → List Char → List (List Char)
  | 0, _ => []
  | Nat.succ fuel, s =>
    match splitOnce s ("```json".toList) with
    | Option.none => []
    | Option.some (_, r) =>
      match r with
      | [] => []
      | c :: rest =>
        match splitOnce rest ("```".toList) with
        | Option.none => []
        | Option.some (p, suf) => (c :: p) :: findallAux fuel suf

/-- All fenced JSON blocks of the text, as strings. -/
def findall (text : String) : List String :=
  (findallAux (text.length + 1) text.toList).map (fun cs => String.mk cs)

/-- One iteration of the loop in `extract_tool_commands`: inside the try
block, `json_commands = json.loads(match)` REBINDS the accumulator to the
parsed value; the following `json_commands.append(json_commands)` then
appends the value to itself — on a parsed list Python makes the list
cyclic in place (approximated here by a snapshot self-append, the value is
discarded anyway), on any other parsed value `.append` raises
`AttributeError`, which the except block catches after the rebinding
already happened; a parse failure is caught before the rebinding. -/
def extractStep (st : PyVal) (m : String) : PyVal :=
  match json_loads m with
  | Option.none => st
  | Option.some v =>
    match v with
    | PyVal.list xs => PyVal.list (xs ++ [PyVal.list xs])
    | other => other

/-- `extract_tool_commands` (tool_utils.py lines 20-45): collect the fenced
JSON blocks, run the (defective) accumulation loop, and fall off the end of
the function body — Python therefore returns `None`, never the accumulated
commands. -/
def extract_tool_commands (text : String) : PyVal :=
  let ms := findall text
  let _loopState := ms.foldl extractStep (PyVal.list [])
  PyVal.none

/-
Concrete fixtures used by the counterexample and failing-input theorems.
-/

/-- A fresh task "fetch-weather" with empty inputs, no result, no history. -/
def tFetch : Task :=
  ⟨PyVal.str "fetch-weather", PyVal.none, PyVal.list [], PyVal.dict [],
   PyVal.none, PyVal.list []⟩

/-- Task "alpha" with a recorded result and one history entry. -/
def tAlpha : Task :=
  ⟨PyVal.str "alpha", PyVal.none, PyVal.list [PyVal.int 1], PyVal.dict [],
   PyVal.str "done:alpha", PyVal.list [PyVal.str "ran"]⟩

/-- Task "beta" with empty inputs. -/
def tBeta : Task :=
  ⟨PyVal.str "beta", PyVal.none, PyVal.list [], PyVal.dict [],
   PyVal.none, PyVal.list []⟩

/-- Workflow holding the single task `tFetch`, `max_loops = 1`. -/
def wFetch : Workflow := ⟨[], [tFetch], PyVal.int 1⟩

/-- Workflow holding `tAlpha` and `tBeta`, `max_loops = 1`. -/
def wAB : Workflow := ⟨[], [tAlpha, tBeta], PyVal.int 1⟩

/-- A persisted-state file whose `max_loops` is readable but whose single
task record is malformed (it lacks the `agent`, `args`, `kwargs`, `result`
and `history` fields). -/
def badStateFile : PyVal :=
  PyVal.dict
    [ (PyVal.str "max_loops", PyVal.int 5)
    , (PyVal.str "tasks", PyVal.list [PyVal.dict [(PyVal.str "description", PyVal.str "x")]]) ]

/-- Scenario C input: one well-formed fenced JSON block followed by one
malformed fenced JSON block. -/
def scenarioText : String :=
  "Plan: ```json\n\x7b\"tool\": \"search\", \"params\": \x7b\"q\": \"miami\"\x7d\x7d\n``` and also ```json\n\x7b\"tool\": \n``` done"

/-- The well-formed block of `scenarioText` as captured by the regex. -/
def goodBlock : String :=
  "\n\x7b\"tool\": \"search\", \"params\": \x7b\"q\": \"miami\"\x7d\x7d\n"

/-- The malformed block of `scenarioText` as captured by the regex. -/
def badBlock : String := "\n\x7b\"tool\": \n"

/-- The parse of the well-formed block. -/
def goodCommand : PyVal :=
  PyVal.dict
    [ (PyVal.str "tool", PyVal.str "search")
    , (PyVal.str "params", PyVal.dict [(PyVal.str "q", PyVal.str "miami")]) ]

/-- Workflow equal to `wAB` except for its `task_pool` attribute. -/
def wAB2 : Workflow := ⟨[tFetch], [tAlpha, tBeta], PyVal.int 1⟩

/-- A well-formed persisted-state file carrying only `max_loops`. -/
def mlOnlyFile : PyVal := PyVal.dict [(PyVal.str "max_loops", PyVal.int 7)]

/-
Helper lemmas shared by several claim theorems.
-/

/-- The for/if/break/else loop of `update_task` never finds a task, because
its shadowed comparison is constantly false. -/
theorem forFirst_shadow_none (ts : List Task) (f : Task → Task) :
    forFirst ts (fun t => pyEqValTask t.description t) f = Option.none := by
  induction ts with
  | nil => rfl
  | cons t rest ih =>
    show Option.map (fun ts2 => t :: ts2)
      (forFirst rest (fun t => pyEqValTask t.description t) f) = Option.none
    rw [ih]
    rfl

/-- The scan of `delete_task` never finds a task, because its shadowed
comparison is constantly false. -/
theorem find_shadow_none (ts : List Task) :
    ts.find? (fun t => pyEqValTask t.description t) = Option.none := by
  induction ts with
  | nil => rfl
  | cons t rest ih =>
    rw [List.find?_cons_of_neg _ (by simp [pyEqValTask])]
    exact ih

/-- `update_task` returns the workflow unchanged on every input: the
shadowed comparison never matches, the for/else raises `ValueError`, and
the except block swallows it. -/
theorem update_task_unchanged (w : Workflow) (d : String)
    (updates : List (String × PyVal)) : update_task w d updates = w := by
  simp [update_task, forFirst_shadow_none]

/-- `delete_task` returns the workflow unchanged on every input, for the
same reason as `update_task`. -/
theorem delete_task_unchanged (w : Workflow) (d : String) :
    delete_task w d = w := by
  simp [delete_task, find_shadow_none]

/-- `remove_task` keeps every task: its filter condition
`task.description != task` is constantly true under the shadowing. -/
theorem remove_task_unchanged (w : Workflow) (d : String) :
    remove_task w d = w := by
  simp [remove_task, pyEqValTask]

/-- `load_workflow_state` never reads or writes the `task_pool`
attribute. -/
theorem load_preserves_task_pool (w : Workflow) (file : Option PyVal) :
    (load_workflow_state w file).task_pool = w.task_pool := by
  cases file with
  | none => rfl
  | some st =>
    simp only [load_workflow_state]
    split
    · rfl
    · split
      · rfl
      · split
        · rfl
        · rfl

/-
Claim theorems.
-/

/-- Claim C1 (code bug): save/load does NOT round-trip.  `save_workflow_state`
writes task records without an `agent` field, while `load_workflow_state`
reads `task_state["agent"]`; on the workflow `wFetch` holding one task, the
saved record has no `agent` key, loading it raises `KeyError` at the first
task (after `self.tasks = []` already ran), and the reloaded pool is empty
instead of reproducing the task's description/args/kwargs/result/history. -/
theorem save_then_load_drops_all_tasks :
    pyGetS (taskRecord tFetch) "agent" = Option.none
    ∧ load_workflow_state wFetch (Option.some (save_workflow_state wFetch))
        = { wFetch with tasks := [] }
    ∧ wFetch.tasks ≠ [] := by
  refine ⟨rfl, rfl, ?_⟩
  simp [wFetch]

/-- Claim C2 (code bug): `update_task` never merges the updates.  The pool
`wFetch` does contain a task whose description equals "fetch-weather", yet
`update_task` leaves the workflow completely unchanged (the shadowed loop
variable makes the match test constantly false, the for/else raises
`ValueError` and the except block prints it); the merge that the docstring
promises would have produced kwargs `{"retries": 3}`, which differs from
the untouched kwargs. -/
theorem update_task_never_merges :
    wFetch.tasks.any (fun t => pyBeq t.description (PyVal.str "fetch-weather")) = true
    ∧ update_task wFetch "fetch-weather" [("retries", PyVal.int 3)] = wFetch
    ∧ pyKwUpdate tFetch.kwargs [("retries", PyVal.int 3)]
        = PyVal.dict [(PyVal.str "retries", PyVal.int 3)]
    ∧ tFetch.kwargs ≠ PyVal.dict [(PyVal.str "retries", PyVal.int 3)] := by
  refine ⟨rfl, rfl, rfl, ?_⟩
  simp [tFetch]

/-- Claim C3 (code bug): neither `remove_task` nor `delete_task` removes
anything.  The pool `wAB` contains a task whose description equals "alpha",
yet both operations return the pool with both tasks still present, in
order (the shadowed comparison never matches any task). -/
theorem remove_and_delete_remove_nothing :
    wAB.tasks.any (fun t => pyBeq t.description (PyVal.str "alpha")) = true
    ∧ remove_task wAB "alpha" = wAB
    ∧ delete_task wAB "alpha" = wAB
    ∧ wAB.tasks.length = 2 :=
  ⟨rfl, rfl, rfl, rfl⟩

/-- Claim C4 (counterexample): a failing load is NOT atomic.  `badStateFile`
has a readable `max_loops` but a malformed task record (its reconstruction
raises `KeyError`, first conjunct); loading it over `wFetch` nevertheless
overwrites `max_loops` with the file's value and leaves the pool emptied,
so the pre-call pool and `max_loops` are not preserved — and no exception
reaches the caller, the except block prints the error. -/
theorem load_failure_corrupts_state :
    load_task_record (PyVal.dict [(PyVal.str "description", PyVal.str "x")])
      = Option.none
    ∧ load_workflow_state wFetch (Option.some badStateFile) = ⟨[], [], PyVal.int 5⟩
    ∧ wFetch.tasks ≠ ([] : List Task)
    ∧ wFetch.max_loops ≠ PyVal.int 5 := by
  refine ⟨rfl, rfl, ?_, ?_⟩
  · simp [wFetch]
  · simp [wFetch]

/-- Claim C4 (amended): what `load_workflow_state` actually guarantees.
If the file is unreadable/unparseable, or its record has no `max_loops`
field, the state is unchanged; once `max_loops` is read, the pool is
replaced by exactly the prefix of task records that reconstruct
successfully (all of them when the record is well-formed, the tasks before
the first malformed record otherwise) and `max_loops` takes the file's
value.  In every case the error is caught and printed, never raised to the
caller. -/
theorem load_state_error_behavior (w : Workflow) (st bad ml : PyVal)
    (h : pyGetS st "max_loops" = Option.some ml)
    (hbad : pyGetS bad "max_loops" = Option.none) :
    load_workflow_state w Option.none = w
    ∧ load_workflow_state w (Option.some bad) = w
    ∧ load_workflow_state w (Option.some st)
        = { w with max_loops := ml, tasks := load_tasks_loop (tasksItems st) } := by
  refine ⟨rfl, ?_, ?_⟩
  · simp only [load_workflow_state, hbad]
  · cases hk : pyGetS st "tasks" with
    | none => simp [load_workflow_state, tasksItems, h, hk, load_tasks_loop]
    | some tv =>
      cases hit : pyIter tv with
      | none => simp [load_workflow_state, tasksItems, h, hk, hit, load_tasks_loop]
      | some items => simp [load_workflow_state, tasksItems, h, hk, hit]

/-- Witness for `load_state_error_behavior` at the workflow `wFetch`, the
well-formed file `mlOnlyFile` and the keyless file `{}`. -/
theorem load_state_error_behavior_witness :
    load_workflow_state wFetch Option.none = wFetch
    ∧ load_workflow_state wFetch (Option.some (PyVal.dict [])) = wFetch
    ∧ load_workflow_state wFetch (Option.some mlOnlyFile)
        = { wFetch with max_loops := PyVal.int 7, tasks := load_tasks_loop (tasksItems mlOnlyFile) } :=
  load_state_error_behavior wFetch mlOnlyFile (PyVal.dict []) (PyVal.int 7) rfl rfl

/-- Claim C5 (counterexample): `add` DOES propagate an exception.  Called
with neither a task nor a list of tasks, it raises `ValueError` to the
caller — there is no try/except around its body, unlike the other mutation
operations. -/
theorem add_raises_to_caller :
    add wFetch Option.none Option.none
      = Except.error "You must provide a task or a list of tasks" := rfl

/-- Claim C5 (amended): `update_task`, `delete_task` and `remove_task`
catch every error at the operation boundary, print a diagnostic and leave
the pool unmodified (in this code they leave it unmodified on every input);
`add` alone is unguarded and raises `ValueError` to the caller when given
neither a task nor a non-empty task list, the pool unmodified. -/
theorem mutation_error_policy (w : Workflow) (d : String)
    (updates : List (String × PyVal)) :
    update_task w d updates = w
    ∧ delete_task w d = w
    ∧ remove_task w d = w
    ∧ add w Option.none Option.none
        = Except.error "You must provide a task or a list of tasks"
    ∧ add w Option.none (Option.some [])
        = Except.error "You must provide a task or a list of tasks" :=
  ⟨update_task_unchanged w d updates, delete_task_unchanged w d,
   remove_task_unchanged w d, rfl, rfl⟩

/-- Claim C6 (counterexample): called with an (empty) sequence of tasks,
`add` does not extend the pool by its zero tasks — the empty list is falsy,
`elif tasks:` falls through, and `add` raises `ValueError`. -/
theorem add_empty_sequence_errors :
    add wFetch Option.none (Option.some [])
      = Except.error "You must provide a task or a list of tasks" := rfl

/-- Claim C6 (amended): `add` with a single task appends it (whatever the
`tasks` argument holds); with a non-empty sequence it extends the pool by
all its tasks in order; with neither, or with an empty sequence (falsy in
Python, hence treated as absent), it raises `ValueError`. -/
theorem add_semantics (w : Workflow) (t : Task) (tasks : Option (List Task))
    (ts : List Task) (h : ts ≠ []) :
    add w (Option.some t) tasks
        = Except.ok { w with task_pool := w.task_pool ++ [t] }
    ∧ add w Option.none (Option.some ts)
        = Except.ok { w with task_pool := w.task_pool ++ ts }
    ∧ add w Option.none Option.none
        = Except.error "You must provide a task or a list of tasks"
    ∧ add w Option.none (Option.some [])
        = Except.error "You must provide a task or a list of tasks" := by
  have hempty : ts.isEmpty = false := by
    cases ts with
    | nil => exact absurd rfl h
    | cons a l => rfl
  exact ⟨rfl, by simp [add, hempty], rfl, rfl⟩

/-- Witness for `add_semantics` at `wFetch`, the task `tFetch` and the
non-empty sequence `[tBeta]`. -/
theorem add_semantics_witness :
    ([tBeta] ≠ ([] : List Task))
    ∧ add wFetch Option.none (Option.some [tBeta])
        = Except.ok { wFetch with task_pool := wFetch.task_pool ++ [tBeta] } :=
  ⟨by simp, (add_semantics wFetch tFetch Option.none [tBeta] (by simp)).2.1⟩

/-- Claim C7 (confirmed): `reset` sets every task's `result` to `None` and
preserves, position by position, each task's `history`, `description`,
`args` and `kwargs`, as well as the number of tasks. -/
theorem reset_clears_results_only (w : Workflow) (i : Nat) :
    ((reset w).tasks.get? i).map Task.result
        = (w.tasks.get? i).map (fun _ => PyVal.none)
    ∧ ((reset w).tasks.get? i).map Task.history = (w.tasks.get? i).map Task.history
    ∧ ((reset w).tasks.get? i).map Task.description
        = (w.tasks.get? i).map Task.description
    ∧ ((reset w).tasks.get? i).map Task.args = (w.tasks.get? i).map Task.args
    ∧ ((reset w).tasks.get? i).map Task.kwargs = (w.tasks.get? i).map Task.kwargs
    ∧ (reset w).tasks.length = w.tasks.length := by
  refine ⟨?_, ?_, ?_, ?_, ?_, ?_⟩ <;>
    first
    | (simp only [reset, List.get?_eq_getElem?, List.getElem?_map, Option.map_map]; rfl)
    | simp [reset]

/-- Claim C8 (confirmed): `reset` is idempotent — running it twice yields
exactly the state reached after running it once. -/
theorem reset_idempotent (w : Workflow) : reset (reset w) = reset w := by
  cases w with
  | mk p ts ml =>
    simp only [reset, List.map_map]
    rfl

/-- Claim C9 (code bug): on a text holding one well-formed and one
malformed fenced JSON block, `extract_tool_commands` does find both blocks,
parses the first and rejects the second — but it returns Python `None`
rather than a one-element collection of the parsed command, because the
loop rebinds its accumulator to each parsed value, `.append` on a parsed
dict raises (caught and printed), and the function body has no `return`
statement. -/
theorem extract_tool_commands_scenario :
    findall scenarioText = [goodBlock, badBlock]
    ∧ json_loads goodBlock = Option.some goodCommand
    ∧ json_loads badBlock = Option.none
    ∧ extract_tool_commands scenarioText = PyVal.none
    ∧ PyVal.none ≠ PyVal.list [goodCommand] :=
  ⟨rfl, rfl, rfl, rfl, fun h => PyVal.noConfusion h⟩

/-- Claim C10 (confirmed): `add` writes only the `task_pool` attribute
(its result's `tasks` is unchanged whatever arguments it gets), while
`reset`, `get_task_results`, `update_task`, `delete_task`, `remove_task`,
`save_workflow_state` and `load_workflow_state` never touch `task_pool`;
`get_task_results` is a function of `tasks` alone and the saved record of
`tasks` and `max_loops` alone, so a task appended by `add` appears in
neither. -/
theorem task_pool_tasks_separation (w w2 : Workflow) (t : Task)
    (tk : Option Task) (tso : Option (List Task)) (d : String)
    (updates : List (String × PyVal)) (file : Option PyVal)
    (h : w.tasks = w2.tasks) (h2 : w.max_loops = w2.max_loops) :
    add w (Option.some t) tso
        = Except.ok { w with task_pool := w.task_pool ++ [t] }
    ∧ (add w tk tso).map Workflow.tasks = (add w tk tso).map (fun _ => w.tasks)
    ∧ get_task_results { w with task_pool := w.task_pool ++ [t] }
        = get_task_results w
    ∧ save_workflow_state { w with task_pool := w.task_pool ++ [t] }
        = save_workflow_state w
    ∧ (reset w).task_pool = w.task_pool
    ∧ (update_task w d updates).task_pool = w.task_pool
    ∧ (delete_task w d).task_pool = w.task_pool
    ∧ (remove_task w d).task_pool = w.task_pool
    ∧ (load_workflow_state w file).task_pool = w.task_pool
    ∧ get_task_results w = get_task_results w2
    ∧ save_workflow_state w = save_workflow_state w2 := by
  refine ⟨rfl, ?_, rfl, rfl, rfl, ?_, ?_, ?_, ?_, ?_, ?_⟩
  · cases tk with
    | some t2 => rfl
    | none =>
      cases tso with
      | none => rfl
      | some ts =>
        cases hts : ts.isEmpty <;> simp [add, hts, Except.map]
  · rw [update_task_unchanged]
  · rw [delete_task_unchanged]
  · rw [remove_task_unchanged]
  · exact load_preserves_task_pool w file
  · simp only [get_task_results, h]
  · simp only [save_workflow_state, h, h2]

/-- Witness for `task_pool_tasks_separation` at the workflows `wAB` and
`wAB2`, which share `tasks` and `max_loops` but have different
`task_pool`s. -/
theorem task_pool_tasks_separation_witness :
    wAB.tasks = wAB2.tasks
    ∧ wAB.max_loops = wAB2.max_loops
    ∧ get_task_results wAB = get_task_results wAB2
    ∧ (reset wAB).task_pool = wAB.task_pool
    ∧ add wAB (Option.some tFetch) Option.none
        = Except.ok { wAB with task_pool := wAB.task_pool ++ [tFetch] } := by
  have hmain := task_pool_tasks_separation wAB wAB2 tFetch Option.none Option.none
    "alpha" [] Option.none rfl rfl
  exact ⟨rfl, rfl, hmain.2.2.2.2.2.2.2.2.2.1, hmain.2.2.2.2.1, hmain.1⟩

end Swarms
